import Mathlib

set_option linter.unusedVariables false

/-!
Shallow embedding of the allora_offchain_node_py client and proofs about it.

The embedding translates the Python sources file by file:

* `src/transactions/tx.py` — fee computation and signed-transaction assembly;
* `src/wallet/wallet.py` — the submission pipeline `register_for_topic` and
  `submit_inference` (gas-estimation retry loop, affordability guard,
  broadcast retry loop, post-broadcast state mutation) and wallet
  initialization;
* `src/api_node/api_node.py` — the network collaborator, modelled as an
  oracle (`Env`, `FetchEnv`) that supplies the value each network call
  returns; the parsing/guard structure of each call is folded into the
  shape of the oracle answer (failure paths return the same sentinel the
  Python function returns on every one of its internal failure branches);
* `src/worker/worker.py` — the inference fetch, the polling iteration and
  an event-trace semantics of the polling loop;
* `src/main.py` — the wallet-initialization gate that runs before any
  worker thread is created.

Python `float` arithmetic is modelled over `ℚ`; every concrete constant
used in the proofs (1.5, the gas values, prices) is exactly representable
in IEEE-754 binary64, so the rational model agrees with the Python float
computation at every input used here.  Machine-independent `int` results
stay in `ℤ`.  Stateful methods become explicit state-passing functions.
Python exceptions are modelled with `Except`: in this source the two
submission methods of wallet.py raise an uncaught `TypeError` whenever
gas estimation succeeds, because wallet.py lines 201-205 and 339-343
pass a `gas_adjustment` keyword argument to `tx.set_fee`, while tx.py
lines 75-79 declare `set_fee(self, gas_limit, gas_price)` with no such
parameter and no keyword catch-all — Python rejects the call before the
method body runs, so everything after those call sites (affordability
guard, broadcast loop, confirmation wait, sequence/balance mutation) is
unreachable code that the embedding terminates with `Except.error`
exactly where the source raises.  The one unbounded `while` loop in the
source, the (unreachable) broadcast loop, is embedded with a fuel
argument, `none` meaning the guard still holds after that many
iterations.
-/

namespace Allora

/-- A Python runtime value, as far as the comparisons in wallet.py need:
an int or a str.  wallet.py compares the str result of `broadcast_tx`
against the int `-1`, which in Python is well defined and always `False`. -/
inductive PyVal where
  | int (n : ℤ)
  | str (s : String)
deriving DecidableEq, Repr

/-- Python equality between an int and a str value: values of different
types compare unequal, same-type values compare by value. -/
def pyEq : PyVal → PyVal → Bool
  | PyVal.int a, PyVal.int b => a == b
  | PyVal.str a, PyVal.str b => a == b
  | _, _ => false

/-- Python `int(x)` on a real number truncates toward zero. -/
def pyInt (q : ℚ) : ℤ := if 0 ≤ q then ⌊q⌋ else ⌈q⌉

/-- The `Fee` protobuf object as built in tx.py: a gas limit and a single
uallo coin amount (the amount string holds an integer). -/
structure Fee where
  gas_limit : ℤ
  amount : ℤ
deriving DecidableEq, Repr

/-- From src/transactions/tx.py, `Transaction.set_fee` (lines 75-89):
`gas_limit = int(gas_limit * 1.5)` and
`amount = str(int(gas_limit * 1.5 * gas_price))`, where the multiplier
1.5 is written literally in the body (it is 3/2 exactly, also as a
binary64 float); the computation depends only on the estimated gas
limit and the gas price, and no configured adjustment enters it.  Note
this function is never successfully called in the staged source: its
only call sites, wallet.py lines 201-205 and 339-343, pass a
`gas_adjustment` keyword that this signature does not declare, which
makes Python raise `TypeError` at the call (see `setFeeTypeError`
below). -/
def Transaction.set_fee (gas_limit : ℤ) (gas_price : ℚ) : Fee :=
  { gas_limit := pyInt ((gas_limit : ℚ) * (3 / 2)),
    amount := pyInt ((gas_limit : ℚ) * (3 / 2) * gas_price) }

/-- A Python exception escaping a wallet submission call.  The staged
source raises exactly one kind: the `TypeError` at the `tx.set_fee`
call sites (see `setFeeTypeError`). -/
inductive PyError where
  | typeError (msg : String)
deriving DecidableEq, Repr

deriving instance DecidableEq for Except

/-- The TypeError raised when wallet.py calls
`tx.set_fee(gas_limit=..., gas_price=..., gas_adjustment=...)` at lines
201-205 and 339-343: tx.py lines 75-79 declare
`set_fee(self, gas_limit, gas_price)` with no `gas_adjustment`
parameter and no keyword catch-all, so Python raises before the method
body runs and no fee is ever computed or applied. -/
def setFeeTypeError : PyError :=
  PyError.typeError
    "set_fee() got an unexpected keyword argument gas_adjustment"

/-- The mutable wallet attributes from src/wallet/wallet.py (class
defaults on lines 35-43: `account_number = -1`, `sequence = -1`,
`balance = 0`, `initialized = False`). -/
structure WalletState where
  account_number : ℤ
  sequence : ℤ
  balance : ℤ
  initialized : Bool
deriving DecidableEq, Repr

/-- `Wallet.increment_sequence` (wallet.py lines 107-111): adds 1 to the
sequence. -/
def WalletState.increment_sequence (w : WalletState) : WalletState :=
  { w with sequence := w.sequence + 1 }

/-- Oracle for the network calls a submission makes, one field per
api_node.py method used by wallet.py.  `simulate k` is what the k-th call
of `APINode.simulate_tx` returns (-1 on any of its failure paths,
api_node.py lines 279-321); `broadcast k` is what the k-th call of
`APINode.broadcast_tx` returns ("" on any of its failure paths,
api_node.py lines 323-364); `gas_price` is `APINode.get_gas_price`;
`wait_message` is what `APINode.wait_for_tx` returns ("" means the
transaction executed with code 0, api_node.py lines 366-408). -/
structure Env where
  simulate : ℕ → ℤ
  gas_price : ℚ
  broadcast : ℕ → String
  wait_message : String

/-- The gas-estimation retry loop shared by wallet.py lines 179-194 and
317-332: `retries = 3; gas_limit = -1; while retries > 0 and
gas_limit == -1: gas_limit = simulate(...); if gas_limit == -1:
retries -= 1; sleep(1)`.  The first argument of the result counts the
`simulate_tx` calls made; the second is the final `gas_limit`.  The loop
is entered with `gas_limit = -1` and each iteration either returns a
non-(-1) estimate (ending the loop) or consumes one retry, so recursion
on the retry budget is exact. -/
def gasLoop (simulate : ℕ → ℤ) : ℕ → ℕ → ℕ × ℤ
  | calls, 0 => (calls, -1)
  | calls, retries + 1 =>
      let g := simulate calls
      if g = -1 then gasLoop simulate (calls + 1) retries
      else (calls + 1, g)

/-- The broadcast retry loop as written at wallet.py lines 214-229 and
352-367: `retries = 5; tx_hash = ""; while retries > 0 and
tx_hash == "": tx_hash = broadcast_tx(...); if tx_hash == -1:
retries -= 1; sleep(3)`.  This loop is unreachable in the staged
program — the `set_fee` TypeError aborts both methods before it (see
`register_for_topic` below) — but its text is embedded verbatim to
document a second latent slip: `broadcast_tx` returns a str ("" on
failure), so the Python comparison `tx_hash == -1` is an int-vs-str
comparison, kept here as `pyEq` on `PyVal`.  State is (calls made,
retries, tx_hash); `fuel` bounds the number of iterations unfolded, and
the result is `none` when the guard still holds after `fuel`
iterations. -/
def broadcastLoop (broadcast : ℕ → String) :
    ℕ → ℕ → ℤ → String → Option (ℕ × ℤ × String)
  | 0, _, _, _ => none
  | fuel + 1, calls, retries, tx_hash =>
      if 0 < retries ∧ tx_hash = "" then
        let h := broadcast calls
        if pyEq (PyVal.str h) (PyVal.int (-1)) then
          broadcastLoop broadcast fuel (calls + 1) (retries - 1) h
        else
          broadcastLoop broadcast fuel (calls + 1) retries h
      else some (calls, retries, tx_hash)

/-- What one call of `register_for_topic` or `submit_inference` did:
the Python outcome (`Except.ok` with the returned Bool, or
`Except.error` with the uncaught exception), the wallet state on exit,
how many `simulate_tx` and `broadcast_tx` calls were made, and the fee
set on the transaction — which is `none` on every path, because no path
of the staged source reaches a completed `set_fee`. -/
structure SubmitOutcome where
  result : Except PyError Bool
  wallet : WalletState
  simulate_calls : ℕ
  broadcast_calls : ℕ
  fee : Option Fee
deriving DecidableEq, Repr

/-- `Wallet.register_for_topic` (wallet.py lines 150-249), from the gas
estimation on; the message construction and timeout height only shape
the opaque transaction body and are not observable here.  When the
gas-estimation budget is exhausted the method returns False (line 199)
with the wallet untouched.  When gas estimation succeeds, the very next
statement is the `tx.set_fee` call at lines 201-205, which raises
`setFeeTypeError`; there is no `try` in the method, so the call
terminates exceptionally with no fee applied and the wallet unchanged.
The affordability guard (lines 209-212), the broadcast loop (lines
214-233), `wait_for_tx` (line 237) and the balance/sequence mutations
(lines 241-248) are unreachable — see `broadcastLoop` for the dead loop
text.  The `gas_adjustment` parameter is the wallet attribute whose
forwarding as a keyword argument causes the TypeError; its value is
irrelevant. -/
def register_for_topic (env : Env) (w : WalletState) (gas_adjustment : ℚ) :
    SubmitOutcome :=
  let sim := gasLoop env.simulate 0 3
  if sim.2 = -1 then
    ⟨Except.ok false, w, sim.1, 0, none⟩
  else
    ⟨Except.error setFeeTypeError, w, sim.1, 0, none⟩

/-- `Wallet.submit_inference` (wallet.py lines 251-384), from the gas
estimation on; the payload bundle and its inner signature only shape
the opaque transaction body and are not observable here.  When the
gas-estimation budget is exhausted the method returns True (line 337)
with the wallet untouched.  When gas estimation succeeds, the
`tx.set_fee` call at lines 339-343 raises `setFeeTypeError` and the
method terminates exceptionally with no fee applied and the wallet
unchanged; the guard at lines 347-350, the broadcast loop at lines
352-371, `wait_for_tx` and the mutations at lines 375-384 are
unreachable. -/
def submit_inference (env : Env) (w : WalletState) (gas_adjustment : ℚ) :
    SubmitOutcome :=
  let sim := gasLoop env.simulate 0 3
  if sim.2 = -1 then
    ⟨Except.ok true, w, sim.1, 0, none⟩
  else
    ⟨Except.error setFeeTypeError, w, sim.1, 0, none⟩

/-- The fee as claim C1 states it: gas limit obtained by rounding
`estimated_gas * adjustment` up, amount obtained by rounding
`gas_limit * gas_price` down.  Written from the words of the claim, to be
compared against the source-derived `Transaction.set_fee`. -/
def claimFee (estimated_gas : ℤ) (adjustment : ℚ) (gas_price : ℚ) : Fee :=
  { gas_limit := ⌈(estimated_gas : ℚ) * adjustment⌉,
    amount := ⌊((⌈(estimated_gas : ℚ) * adjustment⌉ : ℤ) : ℚ) * gas_price⌋ }

/-- Decimal digit test, `0 ≤ c ≤ 9`. -/
def isDigit (c : Char) : Bool := '0' ≤ c && c ≤ '9'

/-- Numeric value of a digit string. -/
def digitsVal (cs : List Char) : ℕ :=
  cs.foldl (fun a c => 10 * a + (c.toNat - Char.toNat '0')) 0

/-- Splits a character list at every occurrence of the separator
character, keeping empty pieces, like the string split used for
number parsing. -/
def splitOnChar (c : Char) : List Char → List (List Char)
  | [] => [[]]
  | x :: xs =>
      if x = c then [] :: splitOnChar c xs
      else
        match splitOnChar c xs with
        | [] => [[x]]
        | g :: gs => (x :: g) :: gs

/-- Value of a signed digit sequence with an optional single dot: the
body of the `float` model below, after the sign has been stripped. -/
def parseFloatAux (sign : ℚ) (cs : List Char) : Option ℚ :=
  match splitOnChar '.' cs with
  | [ip] =>
      if ip ≠ [] ∧ ip.all isDigit then
        some (sign * (digitsVal ip : ℚ))
      else none
  | [ip, fp] =>
      if (ip ≠ [] ∨ fp ≠ []) ∧ ip.all isDigit ∧ fp.all isDigit then
        some (sign * ((digitsVal ip : ℚ) +
          (digitsVal fp : ℚ) / (10 : ℚ) ^ fp.length))
      else none
  | _ => none

/-- Model of the Python builtin `float(text)` on the response bodies the
inference endpoint is specified to produce (a plain decimal number,
optionally signed, with an optional fractional part): `some` of the
exact value on such input, `none` where Python raises `ValueError`.
Exotic accepted forms (exponents, `inf`, `nan`, underscores, surrounding
whitespace) are not modelled; no claim depends on them, only on plain
decimals parsing and non-numeric bodies raising. -/
def parseFloat (s : String) : Option ℚ :=
  match s.data with
  | '-' :: rest => parseFloatAux (-1) rest
  | '+' :: rest => parseFloatAux 1 rest
  | cs => parseFloatAux 1 cs

/-- What one HTTP GET against the inference endpoint produced: an
`httpx.RequestError`, or a response with a status code and a body. -/
inductive FetchOutcome where
  | transportError
  | response (status : ℕ) (body : String)
deriving DecidableEq, Repr

/-- `Worker.fetch_inference` (worker.py lines 49-68): a transport error
returns `None`; a status code in (403, 429, 500, 503) returns `None`;
otherwise the body goes straight into `float(req.text)`, whose
`ValueError` on a non-numeric body is not caught anywhere in
`fetch_inference` (modelled as `Except.error`).  Note a status code
outside the listed four is not checked at all. -/
def fetch_inference (r : FetchOutcome) : Except String (Option ℚ) :=
  match r with
  | FetchOutcome.transportError => Except.ok none
  | FetchOutcome.response status body =>
      if status = 403 ∨ status = 429 ∨ status = 500 ∨ status = 503 then
        Except.ok none
      else
        match parseFloat body with
        | some v => Except.ok (some v)
        | none => Except.error "ValueError"

/-- The inference retry loop of worker.py lines 120-135:
`retries = params.get_inference_fetch_retries(); inference_value = None;
while retries > 0 and inference_value is None: inference_value =
fetch_inference(); if inference_value is None: retries -= 1;
sleep(retry_freq)`.  Returns (calls made, outcome); an exception from
`fetch_inference` aborts the loop and propagates. -/
def fetchLoop (fetch : ℕ → FetchOutcome) :
    ℕ → ℕ → ℕ × Except String (Option ℚ)
  | calls, 0 => (calls, Except.ok none)
  | calls, retries + 1 =>
      match fetch_inference (fetch calls) with
      | Except.error e => (calls + 1, Except.error e)
      | Except.ok none => fetchLoop fetch (calls + 1) retries
      | Except.ok (some v) => (calls + 1, Except.ok (some v))

/-- Oracle for one iteration of the polling loop in `Worker.run`
(worker.py lines 107-157): what `is_topic_active` returns, what
`get_topic_nonce` returns, what the k-th inference GET of the iteration
produces, the configured `inference_fetch_retries` budget, and what the
`wallet.submit_inference` call at line 145 does — `Except.ok` with the
Bool it returns (which line 145 discards), or `Except.error` with the
exception it raises (in the staged source, `setFeeTypeError` whenever
its gas estimation succeeds; see `submit_inference`). -/
structure PollEnv where
  topic_active : Bool
  nonce : ℤ
  fetch : ℕ → FetchOutcome
  fetch_retries : ℕ
  submit_outcome : Except PyError Bool

/-- What one iteration of the polling loop did: the value of
`latest_used_nonce` after the iteration, how many `submit_inference`
calls it made, how many inference GETs it made, whether it called
`self.stop()` (inactive topic, lines 109-113), and whether an uncaught
exception escaped the body (caught by the `except` on line 158, ending
the thread). -/
structure IterOut where
  latest_used_nonce : ℤ
  submissions : ℕ
  fetch_calls : ℕ
  stop_set : Bool
  exception : Bool
deriving DecidableEq, Repr

/-- One iteration of the polling loop body of `Worker.run` (worker.py
lines 108-155), given the oracle and the current `latest_used_nonce`.
The nonce gate is line 116: `if inference_nonce > 0 and inference_nonce >
self.latest_used_nonce`.  On a fetched value the iteration calls
`submit_inference` once (line 145): if that call returns, its Bool is
ignored and `latest_used_nonce` is set to the fetched nonce (line 151);
if it raises, the assignment at line 151 is skipped and the exception
escapes the body to the `except` at line 158, ending the thread.  On an
exhausted fetch budget the iteration only logs (lines 137-140). -/
def pollIteration (env : PollEnv) (latest : ℤ) : IterOut :=
  if env.topic_active = false then
    ⟨latest, 0, 0, true, false⟩
  else if 0 < env.nonce ∧ latest < env.nonce then
    let f := fetchLoop env.fetch 0 env.fetch_retries
    match f.2 with
    | Except.error _ => ⟨latest, 0, f.1, false, true⟩
    | Except.ok none => ⟨latest, 0, f.1, false, false⟩
    | Except.ok (some _) =>
        match env.submit_outcome with
        | Except.error _ => ⟨latest, 1, f.1, false, true⟩
        | Except.ok _ => ⟨env.nonce, 1, f.1, false, false⟩
  else ⟨latest, 0, 0, false, false⟩

/-- Observable events of a worker thread: a read of
`stop_event.is_set()` at the loop head (with the value observed), the
network work of one loop body (activity check, nonce fetch, inference
GETs, submission), and one `time.sleep(nonce_fetch_freq)`. -/
inductive Ev where
  | check (stopped : Bool)
  | work
  | sleep
deriving DecidableEq, Repr

/-- Event-trace semantics of the polling loop of `Worker.run` (worker.py
lines 107-162).  `ext i` is whether an external `stop()` call has set
`stop_event` by the time of the i-th loop-head check; `flag` carries an
internally set stop_event (line 112).  Per iteration: the head check;
on observed stop the loop exits (nothing follows); on an inactive topic
`stop()` and `continue` skip the sleep and return to the check; on an
uncaught exception the thread ends immediately; otherwise the body is
followed by one sleep and the next check.  `fuel` bounds how many
iterations are unfolded. -/
def runTrace (ext : ℕ → Bool) (envs : ℕ → PollEnv) :
    Bool → ℤ → ℕ → ℕ → List Ev
  | _, _, _, 0 => []
  | flag, latest, i, fuel + 1 =>
      if flag || ext i then [Ev.check true]
      else
        let out := pollIteration (envs i) latest
        if out.exception then [Ev.check false, Ev.work]
        else if out.stop_set then
          Ev.check false :: Ev.work ::
            runTrace ext envs true out.latest_used_nonce (i + 1) fuel
        else
          Ev.check false :: Ev.work :: Ev.sleep ::
            runTrace ext envs flag out.latest_used_nonce (i + 1) fuel

/-- Trace property: any event immediately following a sleep is a check of
the stop flag (no network work happens between the end of a sleep and
the next observation of the flag). -/
def sleepThenCheck : List Ev → Bool
  | [] => true
  | Ev.sleep :: e :: t =>
      (match e with | Ev.check _ => true | _ => false) && sleepThenCheck (e :: t)
  | _ :: t => sleepThenCheck t

/-- Trace property: once a check observes the stop flag set, nothing
follows it — no further network work and no further sleep. -/
def stopObservedTerminal : List Ev → Bool
  | [] => true
  | Ev.check true :: t => t.isEmpty
  | _ :: t => stopObservedTerminal t

/-- Trace property: every sleep is preceded by an earlier check of the
stop flag (`seen` records whether a check has occurred yet). -/
def checkBeforeSleep : Bool → List Ev → Bool
  | _, [] => true
  | _, Ev.check _ :: t => checkBeforeSleep true t
  | seen, Ev.sleep :: t => seen && checkBeforeSleep seen t
  | seen, _ :: t => checkBeforeSleep seen t

/-- The account-info part of the response of
`/cosmos/auth/v1beta1/account_info` as read by api_node.py lines
242-243; both chain values are non-negative integers. -/
structure AccountInfo where
  account_number : ℕ
  sequence : ℕ
deriving DecidableEq, Repr

/-- Oracle for the two GETs of `APINode.fetch_wallet_details`
(api_node.py lines 204-277): `none` stands for any of the respective
failure paths (transport error, error status, JSON error, error code or
missing field), on which the Python function logs and returns without
touching the remaining wallet fields. -/
structure FetchEnv where
  account_info : Option AccountInfo
  balance : Option ℕ
deriving DecidableEq, Repr

/-- `APINode.fetch_wallet_details` (api_node.py lines 204-277): a failed
account-info fetch returns before setting anything (so the balance is
not fetched either); a successful one sets `account_number` and
`sequence`; then a failed balance fetch returns leaving `balance`
untouched, a successful one sets it. -/
def fetch_wallet_details (env : FetchEnv) (w : WalletState) : WalletState :=
  match env.account_info with
  | none => w
  | some info =>
      let w1 := { w with account_number := (info.account_number : ℤ),
                         sequence := (info.sequence : ℤ) }
      match env.balance with
      | none => w1
      | some b => { w1 with balance := (b : ℤ) }

/-- The wallet-details part of `Wallet.__init__` (wallet.py lines 83-93):
starting from the class defaults (-1, -1, 0, False), run
`fetch_wallet_details`; if `account_number == -1 or sequence == -1 or
balance == 0` the constructor returns leaving `initialized` False,
otherwise it sets `initialized = True`. -/
def wallet_init (env : FetchEnv) : WalletState :=
  let w0 : WalletState := ⟨-1, -1, 0, false⟩
  let w := fetch_wallet_details env w0
  if w.account_number = -1 ∨ w.sequence = -1 ∨ w.balance = 0 then w
  else { w with initialized := true }

/-- `Wallet.is_initialized` (wallet.py lines 143-148). -/
def is_initialized (w : WalletState) : Bool := w.initialized

/-- Outcome of the startup gates in `main` (main.py): either the process
exits or it goes on to construct and start the worker threads. -/
inductive MainOutcome where
  | aborted
  | startedWorkers
deriving DecidableEq, Repr

/-- The wallet gate of `main` (main.py lines 122-129): right after
constructing the `Wallet`, `if not wallet.is_initialized(): exit(-1)`,
which runs before the loop creating any `Worker` thread (lines
135-158). -/
def main_wallet_gate (env : FetchEnv) : MainOutcome :=
  if is_initialized (wallet_init env) then MainOutcome.startedWorkers
  else MainOutcome.aborted

/-- `TxBody` as built by `Transaction.set_tx_body` (tx.py lines 51-73):
one packed message with a type url, an empty memo and a timeout height.
Byte strings are lists of naturals. -/
structure TxBody where
  type_url : String
  message : List ℕ
  timeout_height : ℤ
deriving DecidableEq, Repr

/-- `SignerInfo` as built in `Transaction.__init__` (tx.py lines 43-49):
the wallet public key and the wallet sequence at construction time (the
mode is the constant SIGN_MODE_DIRECT). -/
structure SignerInfo where
  public_key : List ℕ
  sequence : ℤ
deriving DecidableEq, Repr

/-- `AuthInfo` as built in `Transaction.get_tx_bytes` (tx.py lines
97-100): the signer info and the fee. -/
structure AuthInfo where
  signer_info : SignerInfo
  fee : Fee
deriving DecidableEq, Repr

/-- `SignDoc` as built in `Transaction.get_tx_bytes` (tx.py lines
102-107): serialized body, serialized auth info, chain id and account
number. -/
structure SignDoc where
  body_bytes : List ℕ
  auth_info_bytes : List ℕ
  chain_id : String
  account_number : ℤ
deriving DecidableEq, Repr

/-- `TxRaw` as built in `Transaction.get_tx_bytes` (tx.py lines
116-120). -/
structure TxRaw where
  body_bytes : List ℕ
  auth_info_bytes : List ℕ
  signatures : List (List ℕ)
deriving DecidableEq, Repr

/-- The external collaborators `Transaction.get_tx_bytes` calls: the
protobuf `SerializeToString` of each message type, base64 encoding, and
`ecdsa.SigningKey.sign_deterministic` (RFC 6979: a function of the
private key and the message only — the library call takes no randomness,
which is why it is modelled as a plain function). -/
structure Serializer where
  serialize_body : TxBody → List ℕ
  serialize_auth : AuthInfo → List ℕ
  serialize_doc : SignDoc → List ℕ
  serialize_raw : TxRaw → List ℕ
  b64encode : List ℕ → String
  sign_deterministic : List ℕ → List ℕ → List ℕ

/-- The fields of a `Transaction` object (tx.py lines 15-49) that
`get_tx_bytes` reads: the wallet private key, chain id and account
number (read through `self.wallet`), the signer info, the fee and the
body. -/
structure Transaction where
  priv_key_bytes : List ℕ
  chain_id : String
  account_number : ℤ
  signer_info : SignerInfo
  fee : Fee
  tx_body : TxBody
deriving DecidableEq, Repr

/-- `Transaction.get_tx_bytes` (tx.py lines 91-125): build `AuthInfo`
from signer info and fee; build the `SignDoc` from the serialized body,
the serialized auth info, the chain id and the account number; sign its
serialization with `sign_deterministic`; assemble `TxRaw` and return its
base64-encoded serialization. -/
def get_tx_bytes (S : Serializer) (t : Transaction) : String :=
  let auth_info : AuthInfo := ⟨t.signer_info, t.fee⟩
  let sign_doc : SignDoc :=
    ⟨S.serialize_body t.tx_body, S.serialize_auth auth_info,
      t.chain_id, t.account_number⟩
  let sign_bytes := S.serialize_doc sign_doc
  let final_sig := S.sign_deterministic t.priv_key_bytes sign_bytes
  let tx_raw : TxRaw :=
    ⟨S.serialize_body t.tx_body, S.serialize_auth auth_info, [final_sig]⟩
  S.b64encode (S.serialize_raw tx_raw)

/-- Concrete fixture: an environment where the first simulation returns
100000 gas, the gas price is 1, the first broadcast would return hash
"H" and the execution wait would report code 0 — a run on which every
step the submission reaches succeeds. -/
def envOk : Env := ⟨fun _ => 100000, 1, fun _ => "H", ""⟩

/-- Concrete fixture: an initialized wallet with a large balance. -/
def wRich : WalletState := ⟨7, 11, 1000000000, true⟩

/-- Concrete fixture: an environment where every gas simulation fails. -/
def envSimFail : Env := ⟨fun _ => -1, 1, fun _ => "H", ""⟩

/-- Concrete fixture: an initialized wallet that could not afford a
150000 uallo fee. -/
def wPoor : WalletState := ⟨7, 11, 10, true⟩

/-- Concrete fixture: a polling iteration whose inference endpoint
answers status 200 with a non-numeric body. -/
def envParseFail : PollEnv :=
  ⟨true, 5, fun _ => FetchOutcome.response 200 "abc", 5, Except.ok true⟩

/-- Concrete fixture: a polling iteration whose inference endpoint is
unreachable on every attempt. -/
def envFetchDown : PollEnv :=
  ⟨true, 5, fun _ => FetchOutcome.transportError, 3, Except.ok true⟩

/-- Concrete fixture: a polling iteration with a fresh nonce 101, a
healthy inference endpoint and a submission call that returns a Bool. -/
def envNonce101 : PollEnv :=
  ⟨true, 101, fun _ => FetchOutcome.response 200 "1.5", 5, Except.ok true⟩

/-- Concrete fixture: a polling iteration with a fresh nonce 101 and a
healthy inference endpoint, whose submission call does what the staged
`submit_inference` does against `envOk` from `wRich` — raise the
set_fee TypeError. -/
def envSubmitCrash : PollEnv :=
  ⟨true, 101, fun _ => FetchOutcome.response 200 "1.5", 5,
    (submit_inference envOk wRich 2).result⟩

/-- Concrete fixture: a serializer whose components are simple injective
byte functions, for instantiating signing theorems. -/
def serFix : Serializer :=
  { serialize_body := fun b => b.timeout_height.natAbs :: b.message,
    serialize_auth := fun a => a.fee.gas_limit.natAbs :: a.signer_info.public_key,
    serialize_doc := fun d => d.account_number.natAbs :: d.body_bytes ++ d.auth_info_bytes,
    serialize_raw := fun r => r.body_bytes ++ r.auth_info_bytes ++ r.signatures.flatten,
    b64encode := fun l => toString l,
    sign_deterministic := fun key msg => key ++ msg }

/-- Concrete fixture: a transaction record for instantiating signing
theorems. -/
def txFix : Transaction :=
  ⟨[1, 2], "allora-1", 7, ⟨[3, 4], 11⟩, ⟨150000, 150000⟩, ⟨"/emissions.v9.RegisterRequest", [5], 1000⟩⟩

end Allora

namespace Allora

lemma gasLoop_all_fail (simulate : ℕ → ℤ) (h : ∀ k, simulate k = -1) :
    ∀ retries calls, gasLoop simulate calls retries = (calls + retries, -1) := by
  intro retries
  induction retries with
  | zero => intro calls; simp [gasLoop]
  | succ n ih =>
      intro calls
      simp only [gasLoop, h, if_pos]
      rw [ih]
      simp [Prod.ext_iff]
      omega

lemma broadcastLoop_all_fail (b : ℕ → String) (hb : ∀ k, b k = "") :
    ∀ fuel calls retries, 0 < retries →
      broadcastLoop b fuel calls retries "" = none := by
  intro fuel
  induction fuel with
  | zero => intro calls retries _; rfl
  | succ n ih =>
      intro calls retries hr
      simp only [broadcastLoop, pyEq, hb, hr, true_and, if_pos,
        Bool.false_eq_true, if_false]
      exact ih (calls + 1) retries hr

lemma fetchLoop_all_none (f : ℕ → FetchOutcome)
    (h : ∀ k, fetch_inference (f k) = Except.ok none) :
    ∀ retries calls, fetchLoop f calls retries = (calls + retries, Except.ok none) := by
  intro retries
  induction retries with
  | zero => intro calls; simp [fetchLoop]
  | succ n ih =>
      intro calls
      simp only [fetchLoop, h]
      rw [ih]
      simp [Prod.ext_iff]
      omega

lemma pyInt_floor_eq (q : ℚ) (n : ℤ) (h0 : 0 ≤ q) (h1 : (n : ℚ) ≤ q)
    (h2 : q < (n : ℚ) + 1) : pyInt q = n := by
  rw [pyInt, if_pos h0]
  exact Int.floor_eq_iff.mpr ⟨h1, h2⟩

lemma set_fee_eq (g : ℤ) (p : ℚ) (gl am : ℤ)
    (h1 : pyInt ((g : ℚ) * (3 / 2)) = gl)
    (h2 : pyInt ((g : ℚ) * (3 / 2) * p) = am) :
    Transaction.set_fee g p = ⟨gl, am⟩ := by
  rw [Transaction.set_fee, h1, h2]

lemma set_fee_100000_1 : Transaction.set_fee 100000 1 = ⟨150000, 150000⟩ :=
  set_fee_eq _ _ _ _
    (pyInt_floor_eq _ _ (by norm_num) (by norm_num) (by norm_num))
    (pyInt_floor_eq _ _ (by norm_num) (by norm_num) (by norm_num))

lemma set_fee_100001_2 : Transaction.set_fee 100001 2 = ⟨150001, 300003⟩ :=
  set_fee_eq _ _ _ _
    (pyInt_floor_eq _ _ (by norm_num) (by norm_num) (by norm_num))
    (pyInt_floor_eq _ _ (by norm_num) (by norm_num) (by norm_num))

lemma claimFee_100000_2_1 : claimFee 100000 2 1 = ⟨200000, 200000⟩ := by
  rw [claimFee]
  have h : ((100000 : ℤ) : ℚ) * 2 = ((200000 : ℤ) : ℚ) := by norm_num
  rw [h, Int.ceil_intCast]
  norm_num

/-- C1.  The claim reads: for every submission whose gas estimation
succeeded, the fee applied satisfies gas_limit =
ceil(estimated_gas × adjustment_factor) with adjustment_factor the
configured gas adjustment, and fee_amount = gas_limit × gas_price
rounded down.  Counterexample: with configured adjustment 2, estimated
gas 100000 and gas price 1, the registration applies no fee at all —
the `tx.set_fee` call at wallet.py:201-205 raises TypeError because
tx.py declares no `gas_adjustment` parameter, and the submission dies
with the fee field still `none` — while the claim formula demands an
applied fee with gas limit ceil(100000 × 2) = 200000.  The tx.py
`set_fee` function fails the formula even in isolation: it hardcodes
1.5 and truncates, and at gas 100001 with price 2 computes amount
300003 = floor(100001 × 1.5 × 2), not gas_limit × gas_price =
150001 × 2 = 300002. -/
theorem c1_fee_formula_counterexample :
    register_for_topic envOk wRich 2 =
      ⟨Except.error setFeeTypeError, wRich, 1, 0, none⟩ ∧
    claimFee 100000 2 1 = ⟨200000, 200000⟩ ∧
    Transaction.set_fee 100001 2 = ⟨150001, 300003⟩ ∧
    (150001 * 2 : ℤ) = 300002 ∧ (300003 : ℤ) ≠ 300002 :=
  ⟨by decide, claimFee_100000_2_1, set_fee_100001_2, by decide, by decide⟩

/-- C1 amended: for every submission whose gas estimation succeeded, no
fee is applied at all — the `tx.set_fee` call raises TypeError
(wallet.py passes a `gas_adjustment` keyword that tx.py `set_fee` does
not declare) and the submission terminates exceptionally with the
wallet unchanged, zero broadcast attempts and no fee set; the result is
the same under any two configured adjustment values.  The `set_fee`
function itself maps (gas_limit, gas_price) to gas limit
floor(gas_limit × 1.5) and amount floor(gas_limit × 1.5 × gas_price),
both ≥ 0 for non-negative inputs, with estimated gas 100000 giving
150000. -/
theorem c1_fee_formula_amended (gas : ℤ) (price adj adj2 : ℚ) (env : Env)
    (w : WalletState) (hgas : (gasLoop env.simulate 0 3).2 ≠ -1)
    (hg : 0 ≤ gas) (hp : 0 ≤ price) :
    register_for_topic env w adj =
      ⟨Except.error setFeeTypeError, w, (gasLoop env.simulate 0 3).1, 0, none⟩ ∧
    submit_inference env w adj =
      ⟨Except.error setFeeTypeError, w, (gasLoop env.simulate 0 3).1, 0, none⟩ ∧
    (Transaction.set_fee gas price).gas_limit = ⌊(gas : ℚ) * (3 / 2)⌋ ∧
    (Transaction.set_fee gas price).amount = ⌊(gas : ℚ) * (3 / 2) * price⌋ ∧
    0 ≤ (Transaction.set_fee gas price).gas_limit ∧
    0 ≤ (Transaction.set_fee gas price).amount ∧
    (Transaction.set_fee 100000 price).gas_limit = 150000 ∧
    register_for_topic env w adj = register_for_topic env w adj2 ∧
    submit_inference env w adj = submit_inference env w adj2 := by
  have hg' : (0 : ℚ) ≤ (gas : ℚ) * (3 / 2) := by positivity
  have ha' : (0 : ℚ) ≤ (gas : ℚ) * (3 / 2) * price := by positivity
  refine ⟨?_, ?_, ?_, ?_, ?_, ?_, ?_, rfl, rfl⟩
  · simp only [register_for_topic]
    rw [if_neg hgas]
  · simp only [submit_inference]
    rw [if_neg hgas]
  · simp [Transaction.set_fee, pyInt, hg']
  · simp [Transaction.set_fee, pyInt, ha']
  · simp only [Transaction.set_fee, pyInt, if_pos hg']
    exact Int.le_floor.mpr (by exact_mod_cast hg')
  · simp only [Transaction.set_fee, pyInt, if_pos ha']
    exact Int.le_floor.mpr (by exact_mod_cast ha')
  · show pyInt (((100000 : ℤ) : ℚ) * (3 / 2)) = 150000
    exact pyInt_floor_eq _ _ (by norm_num) (by norm_num) (by norm_num)

/-- C1 amended, witness at estimated gas 100001, price 2, adjustments 2
and 7, in the fixture environment. -/
theorem c1_fee_formula_amended_witness :
    register_for_topic envOk wRich 2 =
      ⟨Except.error setFeeTypeError, wRich, (gasLoop envOk.simulate 0 3).1,
        0, none⟩ ∧
    submit_inference envOk wRich 2 =
      ⟨Except.error setFeeTypeError, wRich, (gasLoop envOk.simulate 0 3).1,
        0, none⟩ ∧
    (Transaction.set_fee 100001 2).gas_limit = ⌊(100001 : ℚ) * (3 / 2)⌋ ∧
    (Transaction.set_fee 100001 2).amount = ⌊(100001 : ℚ) * (3 / 2) * 2⌋ ∧
    0 ≤ (Transaction.set_fee 100001 2).gas_limit ∧
    0 ≤ (Transaction.set_fee 100001 2).amount ∧
    (Transaction.set_fee 100000 2).gas_limit = 150000 ∧
    register_for_topic envOk wRich 2 = register_for_topic envOk wRich 7 ∧
    submit_inference envOk wRich 2 = submit_inference envOk wRich 7 :=
  c1_fee_formula_amended 100001 2 2 7 envOk wRich (by decide) (by norm_num)
    (by norm_num)

/-- C2.  The claim reads: every submission reaching the signed/broadcast
stage makes at most 5 broadcast attempts with a fixed backoff and then
reaches a terminal state.  The code cannot exhibit that behavior: no
submission ever reaches the broadcast stage.  Whenever gas estimation
succeeds, the `tx.set_fee` call raises TypeError (wallet.py:201-205,
339-343 vs tx.py:75-79), so both entry points terminate — by exception
— with zero `broadcast_tx` calls, for every environment, wallet and
adjustment; the concrete conjuncts evaluate the failing input.  The
broadcast loop text itself carries a second slip: it compares its str
result against the int -1 (wallet.py:219/357), which in Python is
always false, so the retry counter could never be decremented even if
the loop were reached — with every broadcast failing, the loop as
written never exits for any iteration bound. -/
theorem c2_broadcast_stage_unreachable :
    (∀ (env : Env) (w : WalletState) (adj : ℚ),
      (register_for_topic env w adj).broadcast_calls = 0 ∧
      (submit_inference env w adj).broadcast_calls = 0) ∧
    register_for_topic envOk wRich 2 =
      ⟨Except.error setFeeTypeError, wRich, 1, 0, none⟩ ∧
    submit_inference envOk wRich 2 =
      ⟨Except.error setFeeTypeError, wRich, 1, 0, none⟩ ∧
    (∀ fuel : ℕ, broadcastLoop (fun _ => "") fuel 0 5 "" = none) := by
  refine ⟨?_, by decide, by decide,
    fun fuel => broadcastLoop_all_fail (fun _ => "") (fun _ => rfl) fuel 0 5
      (by norm_num)⟩
  intro env w adj
  constructor
  · simp only [register_for_topic]
    split <;> rfl
  · simp only [submit_inference]
    split <;> rfl

/-- C3.  The claim reads: sequence += 1 and balance -= fee exactly once
iff the pipeline reached the broadcast stage, and no mutation on
earlier termination.  The code never performs the mutation at all: the
debit and `increment_sequence` calls (wallet.py:241-248, 381-382) sit
past the `tx.set_fee` call, which raises TypeError on every submission
whose gas estimation succeeds, so for every environment, wallet and
adjustment both entry points return the wallet exactly as it was and
make no broadcast attempt; the concrete conjuncts evaluate the failing
input, on which the claim (and the spec) expect a completed broadcast
followed by exactly one debit and increment. -/
theorem c3_sequence_balance_never_mutated :
    (∀ (env : Env) (w : WalletState) (adj : ℚ),
      (register_for_topic env w adj).wallet = w ∧
      (submit_inference env w adj).wallet = w ∧
      (register_for_topic env w adj).broadcast_calls = 0 ∧
      (submit_inference env w adj).broadcast_calls = 0) ∧
    (register_for_topic envOk wRich 2).result = Except.error setFeeTypeError ∧
    (submit_inference envOk wRich 2).result = Except.error setFeeTypeError ∧
    (register_for_topic envOk wRich 2).wallet.sequence = wRich.sequence ∧
    (register_for_topic envOk wRich 2).wallet.balance = wRich.balance := by
  refine ⟨?_, by decide, by decide, by decide, by decide⟩
  intro env w adj
  refine ⟨?_, ?_, ?_, ?_⟩ <;>
    (first
      | (simp only [register_for_topic]; split <;> rfl)
      | (simp only [submit_inference]; split <;> rfl))

/-- C4.  The claim reads: when the computed fee exceeds the cached
balance, the call returns the Unaffordable outcome (False) before
signing or broadcasting, leaving sequence and balance unchanged.  The
code can never produce that outcome: the affordability guard at
wallet.py:209-212 and 347-350 sits past the `tx.set_fee` call, which
raises TypeError on every submission whose gas estimation succeeds, so
no fee is ever computed and no call ever returns False at the guard —
evaluated here at a wallet holding 10 uallo, which could not afford the
fee the intended code would compute: instead of the claimed False
return, both entry points raise, with the wallet unchanged and zero
broadcast attempts. -/
theorem c4_affordability_guard_unreachable :
    register_for_topic envOk wPoor 2 =
      ⟨Except.error setFeeTypeError, wPoor, 1, 0, none⟩ ∧
    submit_inference envOk wPoor 2 =
      ⟨Except.error setFeeTypeError, wPoor, 1, 0, none⟩ ∧
    (register_for_topic envOk wPoor 2).result ≠ Except.ok false ∧
    (submit_inference envOk wPoor 2).result ≠ Except.ok false := by
  refine ⟨by decide, by decide, by decide, by decide⟩

/-- C5.  When every gas simulation fails, both entry points make exactly
3 simulation attempts (the configured budget), never broadcast, leave
the wallet unchanged, and return: False from `register_for_topic`
(wallet.py line 199) but True from `submit_inference` (wallet.py line
337) — the asymmetry the claim describes. -/
theorem c5_unestimable_after_three_failures (env : Env) (w : WalletState)
    (adj : ℚ) (h : ∀ k, env.simulate k = -1) :
    register_for_topic env w adj = ⟨Except.ok false, w, 3, 0, none⟩ ∧
    submit_inference env w adj = ⟨Except.ok true, w, 3, 0, none⟩ := by
  have hg : gasLoop env.simulate 0 3 = (3, -1) := by
    simpa using gasLoop_all_fail env.simulate h 3 0
  constructor
  · simp only [register_for_topic, hg]
    norm_num
  · simp only [submit_inference, hg]
    norm_num

/-- C5 witness: the all-failures environment fixture. -/
theorem c5_unestimable_after_three_failures_witness :
    register_for_topic envSimFail wRich 2 = ⟨Except.ok false, wRich, 3, 0, none⟩ ∧
    submit_inference envSimFail wRich 2 = ⟨Except.ok true, wRich, 3, 0, none⟩ :=
  c5_unestimable_after_three_failures envSimFail wRich 2 (fun _ => rfl)

/-- C6.  The claim reads: a fresh positive nonce whose value is fetched
leads to exactly one submission, and the last-used nonce is set to the
fetched nonce regardless of that submission's outcome.  Counterexample:
at a fresh nonce 101 over last-used 100 with a fetched value, when the
submission call does what the staged `submit_inference` does on any
successful gas estimation — raise the set_fee TypeError — the
assignment at worker.py:151 is skipped: the iteration makes its one
submission attempt but the last-used nonce stays 100, not 101, and the
exception ends the worker thread. -/
theorem c6_nonce_gating_counterexample :
    (submit_inference envOk wRich 2).result = Except.error setFeeTypeError ∧
    envSubmitCrash.submit_outcome = Except.error setFeeTypeError ∧
    envSubmitCrash.nonce = 101 ∧
    pollIteration envSubmitCrash 100 = ⟨100, 1, 1, false, true⟩ ∧
    (100 : ℤ) ≠ 101 := by
  refine ⟨by decide, by decide, by decide, by decide, by decide⟩

/-- C6 amended: in a polling iteration with an active topic, a fetched
nonce that is 0 (or negative) or not strictly above the last-used nonce
makes no submission and leaves the last-used nonce unchanged; a
positive fetched nonce strictly above the last-used one whose inference
value is fetched makes exactly one submission attempt, and then: if the
submission call returns a Bool (in the staged source, only when its own
gas estimation failed), the last-used nonce is set to the fetched nonce
whatever that Bool was; if it raises (as the staged `submit_inference`
does whenever its gas estimation succeeds), the last-used nonce is left
unchanged and the worker thread stops. -/
theorem c6_nonce_gating_amended (env : PollEnv) (latest : ℤ)
    (hactive : env.topic_active = true) :
    ((env.nonce ≤ 0 ∨ env.nonce ≤ latest) →
      pollIteration env latest = ⟨latest, 0, 0, false, false⟩) ∧
    (0 < env.nonce → latest < env.nonce →
      ∀ v, (fetchLoop env.fetch 0 env.fetch_retries).2 = Except.ok (some v) →
        (pollIteration env latest).submissions = 1 ∧
        (∀ b, env.submit_outcome = Except.ok b →
          pollIteration env latest =
            ⟨env.nonce, 1, (fetchLoop env.fetch 0 env.fetch_retries).1,
              false, false⟩) ∧
        (∀ e, env.submit_outcome = Except.error e →
          pollIteration env latest =
            ⟨latest, 1, (fetchLoop env.fetch 0 env.fetch_retries).1,
              false, true⟩)) := by
  constructor
  · intro hle
    simp only [pollIteration, hactive]
    rw [if_neg (by simp), if_neg (by omega)]
  · intro h1 h2 v hv
    refine ⟨?_, ?_, ?_⟩
    · simp only [pollIteration, hactive]
      rw [if_neg (by simp), if_pos ⟨h1, h2⟩, hv]
      cases hs : env.submit_outcome <;> rfl
    · intro b hb
      simp only [pollIteration, hactive]
      rw [if_neg (by simp), if_pos ⟨h1, h2⟩, hv, hb]
    · intro e he
      simp only [pollIteration, hactive]
      rw [if_neg (by simp), if_pos ⟨h1, h2⟩, hv, he]

/-- C6 amended, witness: last-used nonce 100, fetched nonce 101,
endpoint body "1.5", submission returning a Bool — one submission and
the last-used nonce becomes 101. -/
theorem c6_nonce_gating_amended_witness :
    pollIteration envNonce101 100 =
      ⟨envNonce101.nonce, 1,
        (fetchLoop envNonce101.fetch 0 envNonce101.fetch_retries).1,
        false, false⟩ :=
  (((c6_nonce_gating_amended envNonce101 100 rfl).2 (by decide) (by decide)
    _ rfl).2.1) true rfl

lemma runTrace_head (ext : ℕ → Bool) (envs : ℕ → PollEnv) :
    ∀ fuel flag latest i,
      runTrace ext envs flag latest i fuel = [] ∨
      ∃ b t, runTrace ext envs flag latest i fuel = Ev.check b :: t := by
  intro fuel flag latest i
  cases fuel with
  | zero => exact Or.inl rfl
  | succ n =>
      simp only [runTrace]
      split
      · exact Or.inr ⟨true, [], rfl⟩
      · split
        · exact Or.inr ⟨false, [Ev.work], rfl⟩
        · split
          · exact Or.inr ⟨false, _, rfl⟩
          · exact Or.inr ⟨false, _, rfl⟩

lemma sleepThenCheck_runTrace (ext : ℕ → Bool) (envs : ℕ → PollEnv) :
    ∀ fuel flag latest i,
      sleepThenCheck (runTrace ext envs flag latest i fuel) = true := by
  intro fuel
  induction fuel with
  | zero => intro flag latest i; rfl
  | succ n ih =>
      intro flag latest i
      simp only [runTrace]
      split
      · rfl
      · split
        · rfl
        · split
          · exact ih true _ (i + 1)
          · rcases runTrace_head ext envs n flag
              (pollIteration (envs i) latest).latest_used_nonce (i + 1) with
              h | ⟨b, t, h⟩
            · rw [h]
              rfl
            · rw [h]
              have := ih flag (pollIteration (envs i) latest).latest_used_nonce
                (i + 1)
              rw [h] at this
              exact this

lemma stopObservedTerminal_runTrace (ext : ℕ → Bool) (envs : ℕ → PollEnv) :
    ∀ fuel flag latest i,
      stopObservedTerminal (runTrace ext envs flag latest i fuel) = true := by
  intro fuel
  induction fuel with
  | zero => intro flag latest i; rfl
  | succ n ih =>
      intro flag latest i
      simp only [runTrace]
      split
      · rfl
      · split
        · rfl
        · split
          · exact ih true _ (i + 1)
          · exact ih flag _ (i + 1)

lemma checkBeforeSleep_runTrace (ext : ℕ → Bool) (envs : ℕ → PollEnv) :
    ∀ fuel flag latest i seen,
      checkBeforeSleep seen (runTrace ext envs flag latest i fuel) = true := by
  intro fuel
  induction fuel with
  | zero => intro flag latest i seen; rfl
  | succ n ih =>
      intro flag latest i seen
      simp only [runTrace]
      split
      · rfl
      · split
        · rfl
        · split
          · exact ih true _ (i + 1) true
          · exact ih flag _ (i + 1) true

/-- C7.  Trace-level cancellation discipline of the polling loop: every
sleep is preceded by a check of the stop flag and the event right after
a sleep, when any, is again a check (no network work between a sleep and
the next flag observation); once a check observes the flag set, nothing
at all follows (no further network calls, no further sleeps); and in the
concrete cancellation scenario — flag clear at the check opening an
iteration that neither stops internally nor raises, then set during its
work or sleep — the worker emits exactly one more sleep and one final
check and stops, i.e. it reaches Stopped within one polling interval. -/
theorem c7_cancellation_within_one_interval (ext : ℕ → Bool)
    (envs : ℕ → PollEnv) (flag : Bool) (latest : ℤ) (i fuel : ℕ) :
    sleepThenCheck (runTrace ext envs flag latest i fuel) = true ∧
    checkBeforeSleep false (runTrace ext envs flag latest i fuel) = true ∧
    stopObservedTerminal (runTrace ext envs flag latest i fuel) = true ∧
    (ext i = false →
      (pollIteration (envs i) latest).exception = false →
      (pollIteration (envs i) latest).stop_set = false →
      ext (i + 1) = true →
      runTrace ext envs false latest i (fuel + 1 + 1) =
        [Ev.check false, Ev.work, Ev.sleep, Ev.check true]) := by
  refine ⟨sleepThenCheck_runTrace ext envs fuel flag latest i,
    checkBeforeSleep_runTrace ext envs fuel flag latest i false,
    stopObservedTerminal_runTrace ext envs fuel flag latest i, ?_⟩
  intro hext hexc hstop hext2
  simp [runTrace, hext, hexc, hstop, hext2]

/-- C7 witness: a worker over the unreachable-endpoint fixture whose
stop flag is raised during the first iteration: the trace is one clear
check, the work, one sleep, and a final check observing the stop. -/
theorem c7_cancellation_within_one_interval_witness :
    runTrace (fun j => decide (1 ≤ j)) (fun _ => envFetchDown) false 0 0
        (0 + 1 + 1) =
      [Ev.check false, Ev.work, Ev.sleep, Ev.check true] :=
  (c7_cancellation_within_one_interval (fun j => decide (1 ≤ j))
    (fun _ => envFetchDown) false 0 0 0).2.2.2 rfl (by decide) (by decide) rfl

/-- C8.  The claim reads: any non-success HTTP status and any parse
failure of the body is treated as value-unavailable for that attempt and
retried.  Counterexample: a status-200 response whose body "abc" does
not parse makes `float(req.text)` raise an uncaught ValueError
(worker.py line 68), which ends the worker thread on the first attempt
instead of counting as an unavailable value; and a status-404 response
is not in the handled set (403, 429, 500, 503), so its body is parsed
and used rather than treated as unavailable. -/
theorem c8_fetch_failure_counterexample :
    fetch_inference (FetchOutcome.response 200 "abc") =
      Except.error "ValueError" ∧
    fetch_inference (FetchOutcome.response 200 "abc") ≠ Except.ok none ∧
    pollIteration envParseFail 0 = ⟨0, 0, 1, false, true⟩ ∧
    fetch_inference (FetchOutcome.response 404 "1.5") ≠ Except.ok none ∧
    fetch_inference (FetchOutcome.response 404 "1.5") ≠
      Except.error "ValueError" := by
  refine ⟨by decide, by decide, by decide, by decide, by decide⟩

/-- C8 amended: a transport error or a status in (403, 429, 500, 503)
is treated as value-unavailable and retried up to the configured budget
with fixed backoff; exhausting the budget only makes the iteration
produce no submission, with the worker still running.  But a response
body that does not parse as a decimal number raises out of
`fetch_inference` on that attempt and stops the worker thread (the
process and the other workers are unaffected), and status codes outside
the four listed ones are not treated as unavailable. -/
theorem c8_fetch_retry_amended (env : PollEnv) (latest : ℤ)
    (hactive : env.topic_active = true) (h1 : 0 < env.nonce)
    (h2 : latest < env.nonce) :
    ((∀ k, fetch_inference (env.fetch k) = Except.ok none) →
      pollIteration env latest = ⟨latest, 0, env.fetch_retries, false, false⟩) ∧
    (∀ e, 0 < env.fetch_retries →
      fetch_inference (env.fetch 0) = Except.error e →
      pollIteration env latest = ⟨latest, 0, 1, false, true⟩) := by
  constructor
  · intro hall
    have hf := fetchLoop_all_none env.fetch hall env.fetch_retries 0
    simp only [pollIteration, hactive]
    rw [if_neg (by simp), if_pos ⟨h1, h2⟩, hf]
    simp
  · intro e hr he
    rcases hn : env.fetch_retries with _ | r
    · omega
    · have hf : fetchLoop env.fetch 0 (r + 1) = (1, Except.error e) := by
        simp [fetchLoop, he]
      simp only [pollIteration, hactive]
      rw [if_neg (by simp), if_pos ⟨h1, h2⟩, hn, hf]

/-- C8 amended witness: the unreachable-endpoint fixture exhausts its 3
retries, produces no submission, and the worker keeps running. -/
theorem c8_fetch_retry_amended_witness :
    pollIteration envFetchDown 0 =
      ⟨0, 0, envFetchDown.fetch_retries, false, false⟩ :=
  (c8_fetch_retry_amended envFetchDown 0 rfl (by decide) (by decide)).1
    (fun _ => rfl)

/-- C9.  Signing is deterministic: `get_tx_bytes` is a pure function of
the body, the fee, the signer info (public key and sequence), the chain
id, the account number and the private key — the embedded
`sign_deterministic` collaborator receives only the private key and the
canonical bytes-to-sign, never a random nonce — so two transactions
agreeing on those fields produce byte-identical signed encodings, for
every serializer and signer implementation. -/
theorem c9_signing_deterministic (S : Serializer) (t1 t2 : Transaction)
    (hb : t1.tx_body = t2.tx_body) (hf : t1.fee = t2.fee)
    (hs : t1.signer_info = t2.signer_info) (hc : t1.chain_id = t2.chain_id)
    (ha : t1.account_number = t2.account_number)
    (hk : t1.priv_key_bytes = t2.priv_key_bytes) :
    get_tx_bytes S t1 = get_tx_bytes S t2 := by
  simp only [get_tx_bytes, hb, hf, hs, hc, ha, hk]

/-- C9 witness: the fixture serializer and transaction signed twice give
the same bytes. -/
theorem c9_signing_deterministic_witness :
    get_tx_bytes serFix txFix = get_tx_bytes serFix txFix :=
  c9_signing_deterministic serFix txFix txFix rfl rfl rfl rfl rfl rfl

/-- C10.  After construction, the wallet is initialized only when the
startup fetch left account_number ≥ 0, sequence ≥ 0 and a balance
different from 0; a balance fetched as exactly 0 or a failed balance
fetch leaves the wallet uninitialized — also when account number and
sequence were fetched successfully — and the main gate then aborts the
process before any worker is created. -/
theorem c10_wallet_initialization_gate (env : FetchEnv) :
    (is_initialized (wallet_init env) = true →
      0 ≤ (wallet_init env).account_number ∧
      0 ≤ (wallet_init env).sequence ∧
      (wallet_init env).balance ≠ 0) ∧
    (env.balance = some 0 →
      is_initialized (wallet_init env) = false ∧
      main_wallet_gate env = MainOutcome.aborted) ∧
    (env.balance = none →
      is_initialized (wallet_init env) = false ∧
      main_wallet_gate env = MainOutcome.aborted) := by
  obtain ⟨acc, bal⟩ := env
  rcases acc with _ | info
  · refine ⟨?_, ?_, ?_⟩ <;>
      simp [wallet_init, fetch_wallet_details, is_initialized, main_wallet_gate]
  · rcases bal with _ | b
    · refine ⟨?_, ?_, ?_⟩ <;>
        simp [wallet_init, fetch_wallet_details, is_initialized,
          main_wallet_gate]
    · have hacc : (wallet_init ⟨some info, some b⟩).account_number =
          (info.account_number : ℤ) := by
        simp only [wallet_init, fetch_wallet_details]
        split <;> rfl
      have hseq : (wallet_init ⟨some info, some b⟩).sequence =
          (info.sequence : ℤ) := by
        simp only [wallet_init, fetch_wallet_details]
        split <;> rfl
      have hbal : (wallet_init ⟨some info, some b⟩).balance = (b : ℤ) := by
        simp only [wallet_init, fetch_wallet_details]
        split <;> rfl
      refine ⟨?_, ?_, ?_⟩
      · intro hinit
        refine ⟨hacc ▸ Int.natCast_nonneg _, hseq ▸ Int.natCast_nonneg _, ?_⟩
        rw [hbal]
        intro hb0
        rw [show ((b : ℤ) = 0 ↔ b = 0) from Int.natCast_eq_zero] at hb0
        subst hb0
        simp [wallet_init, fetch_wallet_details, is_initialized] at hinit
      · intro hb0
        have : b = 0 := by simpa using hb0
        subst this
        constructor <;>
          simp [wallet_init, fetch_wallet_details, is_initialized,
            main_wallet_gate]
      · intro hnone
        simp at hnone

/-- C10 witness: account number 5 and sequence 7 fetched successfully
but an on-chain balance of exactly 0 leaves the wallet uninitialized and
the process aborts before starting workers. -/
theorem c10_wallet_initialization_gate_witness :
    is_initialized (wallet_init ⟨some ⟨5, 7⟩, some 0⟩) = false ∧
    main_wallet_gate ⟨some ⟨5, 7⟩, some 0⟩ = MainOutcome.aborted :=
  (c10_wallet_initialization_gate ⟨some ⟨5, 7⟩, some 0⟩).2.1 rfl

end Allora
